import Mathlib

/-!
Verification of the aisuite-js request/response normalization layer.

The canonical data model, the Mistral and Groq adapters
(`src/providers/mistral/adapters.ts`, `src/providers/groq/adapters.ts`) and
the two provider wrappers (`src/providers/mistral/provider.ts`,
`src/providers/groq/provider.ts`) are embedded shallowly: JS promises that
either resolve or throw become `Except`, thrown JS values become `JSThrow`,
field access on `undefined` (a runtime `TypeError`) is modelled by an
`Option`-returning adapter whose `none` branch the provider wrapper turns
into a caught JS error, and `Date.now()` is passed in as an explicit `now`
argument.  JS numbers that the layer only passes through verbatim (never
inspects) are modelled as natural numbers.
-/

/-- JS numeric values that this layer only copies verbatim (temperature,
top_p, ...); no claim inspects their arithmetic, so they are modelled as
naturals. -/
abbrev JSNumber := Nat

/-- A tool call: function name and serialized JSON arguments, opaque to the
system and forwarded verbatim. -/
structure ToolCall where
  id : String
  name : String
  arguments : String
deriving DecidableEq, Repr

/-- Canonical chat message (`src/types`): role, nullable content and optional
tool fields.  Absent optional JS fields are `none`. -/
structure ChatMessage where
  role : String
  content : Option String
  name : Option String := none
  tool_calls : Option (List ToolCall) := none
  tool_call_id : Option String := none
deriving DecidableEq, Repr

/-- Canonical chat-completion request.  `model` still carries the
`vendor:model` prefix until the Client strips it. -/
structure ChatCompletionRequest where
  model : String
  messages : List ChatMessage
  temperature : Option JSNumber := none
  max_tokens : Option JSNumber := none
  top_p : Option JSNumber := none
  stop : Option (List String) := none
  user : Option String := none
  stream : Option Bool := none
  tools : Option (List ToolCall) := none
  tool_choice : Option String := none
deriving DecidableEq, Repr

/-- Token usage record of a canonical response. -/
structure Usage where
  prompt_tokens : Nat
  completion_tokens : Nat
  total_tokens : Nat
deriving DecidableEq, Repr

/-- One choice of a canonical non-streaming response. -/
structure Choice where
  index : Nat
  message : ChatMessage
  finish_reason : Option String
deriving DecidableEq, Repr

/-- Canonical non-streaming chat-completion response. -/
structure ChatCompletionResponse where
  id : String
  object : String
  created : Nat
  model : String
  choices : List Choice
  usage : Usage
deriving DecidableEq, Repr

/-- Partial message carried by one streaming chunk. -/
structure Delta where
  role : Option String := none
  content : Option String := none
  tool_calls : Option (List ToolCall) := none
deriving DecidableEq, Repr

/-- One choice of a canonical streaming chunk. -/
structure ChunkChoice where
  index : Nat
  delta : Delta
  finish_reason : Option String
deriving DecidableEq, Repr

/-- Canonical streaming chunk. -/
structure ChatCompletionChunk where
  id : String
  object : String
  created : Nat
  model : String
  choices : List ChunkChoice
deriving DecidableEq, Repr

/-- Canonical error (`core/errors.ts` is not under src/; the class is
modelled from the spec's error taxonomy: message text, originating vendor
name, machine-readable kind code; it subclasses the JS `Error`, so its
`message` is what `error.message` reads). -/
structure AISuiteError where
  message : String
  provider : String
  code : String
deriving DecidableEq, Repr

/-- A value thrown by JS code, as the provider wrappers discriminate it:
an `AISuiteError` instance, any other `Error` instance (only its `message`
is read), or a non-`Error` value such as a bare string. -/
inductive JSThrow where
  | aisuite (e : AISuiteError)
  | jsError (message : String)
  | nonError
deriving DecidableEq, Repr

/-- The expression `error instanceof Error ? error.message : "Unknown error"`
used by every catch block (an `AISuiteError` is an `Error`). -/
def JSThrow.errMessage : JSThrow → String
  | .aisuite e => e.message
  | .jsError m => m
  | .nonError => "Unknown error"

/-- Message text of the runtime `TypeError` JS raises on field access on
`undefined`; its exact engine-dependent wording is not relied on by any
theorem. -/
def typeErrorMessage : String := "TypeError"

namespace Mistral

/-- Message shape sent to the Mistral SDK by `adaptMessage`. -/
structure NativeMessage where
  role : String
  content : Option String
  tool_calls : Option (List ToolCall)
deriving DecidableEq, Repr

/-- Request shape sent to the Mistral SDK by `adaptRequest`. -/
structure NativeRequest where
  model : String
  messages : List NativeMessage
  tools : Option (List ToolCall)
  temperature : Option JSNumber
  max_tokens : Option JSNumber
  top_p : Option JSNumber
  stream : Option Bool
deriving DecidableEq, Repr

/-- Mistral adapters `adaptMessage`. -/
def adaptMessage (message : ChatMessage) : NativeMessage :=
  { role := message.role
    content := message.content
    tool_calls := message.tool_calls }

/-- Mistral adapters `adaptRequest`: forwards `tools` only when it is a
non-empty array, otherwise `undefined`. -/
def adaptRequest (request : ChatCompletionRequest) : NativeRequest :=
  let tools : Option (List ToolCall) :=
    match request.tools with
    | some ts => if ts.length > 0 then some ts else none
    | none => none
  { model := request.model
    messages := request.messages.map adaptMessage
    tools := tools
    temperature := request.temperature
    max_tokens := request.max_tokens
    top_p := request.top_p
    stream := request.stream }

/-- Assistant message inside a native Mistral response choice. -/
structure ResponseMessage where
  role : String
  content : Option String
  tool_calls : Option (List ToolCall) := none
deriving DecidableEq, Repr

/-- One choice of a native Mistral response. -/
structure ResponseChoice where
  index : Nat
  message : ResponseMessage
  finish_reason : Option String
deriving DecidableEq, Repr

/-- Native Mistral non-streaming response, as the runtime value may arrive:
`usage` is `Option` because a response lacking it makes the adapter's
`response.usage.prompt_tokens` access crash rather than default. -/
structure MistralResponse where
  id : String
  object : String := "chat.completion"
  created : Nat := 0
  model : String
  choices : List ResponseChoice
  usage : Option Usage
deriving DecidableEq, Repr

/-- Mistral adapters `adaptResponse`.  The source reads
`response.choices[0].message.content` and `response.usage.prompt_tokens`
directly; when `choices` is empty or `usage` absent that field access throws
a `TypeError`, modelled here by `none`.  `now` stands for
`Math.floor(Date.now() / 1000)`. -/
def adaptResponse (response : MistralResponse) (now : Nat) :
    Option ChatCompletionResponse :=
  match response.choices, response.usage with
  | c :: _, some u =>
    some
      { id := response.id
        object := "chat.completion"
        created := now
        model := response.model
        choices :=
          [{ index := 0
             message := { role := "assistant", content := c.message.content }
             finish_reason := c.finish_reason }]
        usage :=
          { prompt_tokens := u.prompt_tokens
            completion_tokens := u.completion_tokens
            total_tokens := u.total_tokens } }
  | _, _ => none

/-- Delta of one native Mistral stream event choice. -/
structure StreamDelta where
  role : Option String := none
  content : Option String := none
  tool_calls : Option (List ToolCall) := none
deriving DecidableEq, Repr

/-- One choice of a native Mistral stream event. -/
structure StreamChoice where
  index : Nat := 0
  delta : StreamDelta
  finish_reason : Option String := none
deriving DecidableEq, Repr

/-- Native Mistral stream event; it carries its own per-event `id`, which the
adapter discards in favour of the per-stream id. -/
structure MistralStreamResponse where
  id : String := ""
  model : String
  created : Nat := 0
  choices : List StreamChoice
deriving DecidableEq, Repr

/-- Mistral adapters `adaptStreamResponse`: builds one chunk from
`response.choices[0]`, stamping the caller-supplied per-stream `streamId`;
empty `choices` makes the `[0]` access crash (`none`). -/
def adaptStreamResponse (response : MistralStreamResponse)
    (streamId : String) (now : Nat) : Option ChatCompletionChunk :=
  match response.choices with
  | c :: _ =>
    some
      { id := streamId
        object := "chat.completion.chunk"
        created := now
        model := response.model
        choices :=
          [{ index := 0
             delta :=
               { role := some "assistant"
                 content := c.delta.content
                 tool_calls := c.delta.tool_calls }
             finish_reason := c.finish_reason }] }
  | [] => none

end Mistral

namespace Groq

/-- Replacement of the first occurrence of a pattern, as the JS
`String.replace` with a string pattern behaves, over character lists. -/
def replaceFirstList (pat repl : List Char) : List Char → List Char
  | [] => if pat = [] then repl else []
  | c :: cs =>
    if pat.isPrefixOf (c :: cs) then repl ++ (c :: cs).drop pat.length
    else c :: replaceFirstList pat repl cs

/-- JS `s.replace(pat, repl)` with a string pattern: first occurrence only. -/
def replaceFirst (s pat repl : String) : String :=
  ⟨replaceFirstList pat.data repl.data s.data⟩

/-- Request shape sent to the Groq SDK by `adaptRequest`; messages are
forwarded verbatim. -/
structure NativeRequest where
  model : String
  messages : List ChatMessage
  temperature : Option JSNumber
  max_tokens : Option JSNumber
  stream : Option Bool
  tools : Option (List ToolCall)
  tool_choice : Option String
deriving DecidableEq, Repr

/-- Groq adapters `adaptRequest`: strips a leading `groq:` from the model via
`model.replace("groq:", "")` and passes the other fields through. -/
def adaptRequest (request : ChatCompletionRequest) : NativeRequest :=
  { model := replaceFirst request.model "groq:" ""
    messages := request.messages
    temperature := request.temperature
    max_tokens := request.max_tokens
    stream := request.stream
    tools := request.tools
    tool_choice := request.tool_choice }

/-- One choice of a native Groq completion. -/
structure GroqChoice where
  index : Nat
  message : ChatMessage
  finish_reason : Option String
deriving DecidableEq, Repr

/-- Native Groq completion; `usage` is optional in the SDK type and the
adapter defaults it. -/
structure GroqChatCompletion where
  id : String
  object : String
  created : Nat
  model : String
  choices : List GroqChoice
  usage : Option Usage
deriving DecidableEq, Repr

/-- Groq adapters `adaptResponse`: re-prefixes the model with `groq:`, maps
choices field-by-field and defaults a nullish `usage` to the zero record
(`response.usage ?? \x7b...0...\x7d`). -/
def adaptResponse (response : GroqChatCompletion) : ChatCompletionResponse :=
  { id := response.id
    object := response.object
    created := response.created
    model := "groq:" ++ response.model
    choices := response.choices.map fun choice =>
      { index := choice.index
        message := choice.message
        finish_reason := choice.finish_reason }
    usage := response.usage.getD
      { prompt_tokens := 0, completion_tokens := 0, total_tokens := 0 } }

/-- One choice of a native Groq stream chunk. -/
structure StreamChoice where
  index : Nat
  delta : Delta
  finish_reason : Option String
deriving DecidableEq, Repr

/-- Native Groq stream chunk; its per-event `id` is discarded by the
adapter. -/
structure GroqStreamChunk where
  id : String := ""
  model : String
  choices : List StreamChoice
deriving DecidableEq, Repr

/-- Groq adapters `adaptStreamResponse`: stamps the per-stream `streamId`,
re-prefixes the model and passes each choice's `delta` through verbatim.
`now` stands for `Date.now()`. -/
def adaptStreamResponse (chunk : GroqStreamChunk) (streamId : String)
    (now : Nat) : ChatCompletionChunk :=
  { id := streamId
    object := "chat.completion.chunk"
    created := now
    model := "groq:" ++ chunk.model
    choices := chunk.choices.map fun choice =>
      { index := choice.index
        delta := choice.delta
        finish_reason := choice.finish_reason } }

end Groq

/-- Shared message text of the `STREAMING_NOT_SUPPORTED` error that both the
Mistral and the Groq wrapper throw. -/
def streamingNotSupportedMsg : String :=
  "Streaming is not supported in non-streaming method. Set stream: false or use streamChatCompletion method."

namespace MistralProvider

/-- Wrapper `MistralProvider.chatCompletion` (`providers/mistral/provider.ts`).
The vendor SDK handle `this.client.chat` is the `transport` parameter: a
function from the adapted native request to either a native response or a
thrown JS value.  A truthy `request.stream` throws `STREAMING_NOT_SUPPORTED`
inside the `try`; the `catch` rethrows `AISuiteError` instances unchanged and
wraps anything else into `API_ERROR`. -/
def chatCompletion
    (transport : Mistral.NativeRequest → Except JSThrow Mistral.MistralResponse)
    (request : ChatCompletionRequest) (now : Nat) :
    Except AISuiteError ChatCompletionResponse :=
  let tryBody : Except JSThrow ChatCompletionResponse :=
    if request.stream = some true then
      .error (.aisuite
        { message := streamingNotSupportedMsg
          provider := "mistral"
          code := "STREAMING_NOT_SUPPORTED" })
    else
      match transport (Mistral.adaptRequest request) with
      | .error e => .error e
      | .ok completion =>
        match Mistral.adaptResponse completion now with
        | some resp => .ok resp
        | none => .error (.jsError typeErrorMessage)
  match tryBody with
  | .ok r => .ok r
  | .error (.aisuite e) => .error e
  | .error e =>
    .error
      { message := "Mistral API error: " ++ e.errMessage
        provider := "mistral"
        code := "API_ERROR" }

/-- Wrapper `MistralProvider.streamChatCompletion`.  The vendor stream is the
finite list of events `transport` resolves to; `streamId` is the value of the
single `generateId()` call made after the vendor call and before the first
chunk is emitted.  The `catch` wraps every thrown value — `AISuiteError`
instances included — into a fresh `STREAMING_ERROR`. -/
def streamChatCompletion
    (transport : Mistral.NativeRequest →
      Except JSThrow (List Mistral.MistralStreamResponse))
    (streamId : String) (request : ChatCompletionRequest) (now : Nat) :
    Except AISuiteError (List ChatCompletionChunk) :=
  let tryBody : Except JSThrow (List ChatCompletionChunk) :=
    match transport (Mistral.adaptRequest request) with
    | .error e => .error e
    | .ok events =>
      match events.mapM (fun ev => Mistral.adaptStreamResponse ev streamId now) with
      | some chunks => .ok chunks
      | none => .error (.jsError typeErrorMessage)
  match tryBody with
  | .ok chunks => .ok chunks
  | .error e =>
    .error
      { message := "Mistral streaming error: " ++ e.errMessage
        provider := "mistral"
        code := "STREAMING_ERROR" }

end MistralProvider

namespace GroqProvider

/-- Wrapper `GroqProvider.chatCompletion` (`providers/groq/provider.ts`);
the transport is `this.client.chat.completions.create`.  Same `try`/`catch`
shape as the Mistral wrapper, with the Groq adapters and message texts. -/
def chatCompletion
    (transport : Groq.NativeRequest → Except JSThrow Groq.GroqChatCompletion)
    (request : ChatCompletionRequest) :
    Except AISuiteError ChatCompletionResponse :=
  let tryBody : Except JSThrow ChatCompletionResponse :=
    if request.stream = some true then
      .error (.aisuite
        { message := streamingNotSupportedMsg
          provider := "groq"
          code := "STREAMING_NOT_SUPPORTED" })
    else
      match transport (Groq.adaptRequest request) with
      | .error e => .error e
      | .ok completion => .ok (Groq.adaptResponse completion)
  match tryBody with
  | .ok r => .ok r
  | .error (.aisuite e) => .error e
  | .error e =>
    .error
      { message := "Groq API error: " ++ e.errMessage
        provider := "groq"
        code := "API_ERROR" }

/-- Wrapper `GroqProvider.streamChatCompletion`: like the Mistral one, the
`catch` wraps every thrown value into a fresh `STREAMING_ERROR`; the Groq
stream adapter is total so mid-stream adaptation never throws. -/
def streamChatCompletion
    (transport : Groq.NativeRequest → Except JSThrow (List Groq.GroqStreamChunk))
    (streamId : String) (request : ChatCompletionRequest) (now : Nat) :
    Except AISuiteError (List ChatCompletionChunk) :=
  let tryBody : Except JSThrow (List ChatCompletionChunk) :=
    match transport (Groq.adaptRequest request) with
    | .error e => .error e
    | .ok events =>
      .ok (events.map fun ev => Groq.adaptStreamResponse ev streamId now)
  match tryBody with
  | .ok chunks => .ok chunks
  | .error e =>
    .error
      { message := "Groq streaming error: " ++ e.errMessage
        provider := "groq"
        code := "STREAMING_ERROR" }

end GroqProvider

namespace Client

/-- Modelled from the spec: splitting at the first `:` of a character list
(`src/client.ts` is not under src/, only its tests are; the spec says the
model string is split on the first separator only, everything after it kept
verbatim). -/
def splitAtColon : List Char → Option (List Char × List Char)
  | [] => none
  | c :: cs =>
    if c = ':' then some ([], cs)
    else
      match splitAtColon cs with
      | some (pre, post) => some (c :: pre, post)
      | none => none

/-- Modelled from the spec: split `request.model` on the first separator only
into the vendor key and the vendor model id; with no separator the whole
string is the vendor key. -/
def splitModel (model : String) : String × String :=
  match splitAtColon model.data with
  | some (pre, post) => (⟨pre⟩, ⟨post⟩)
  | none => (model, "")

/-- Outcome of one `chat.completions.create` dispatch: which provider method
is invoked with which forwarded request, or the `ProviderNotConfigured`
failure naming the vendor. -/
inductive DispatchResult where
  | notConfigured (vendor : String)
  | callChat (vendor : String) (forwarded : ChatCompletionRequest)
  | callStream (vendor : String) (forwarded : ChatCompletionRequest)
deriving DecidableEq, Repr

/-- Modelled from the spec: `Client.chat.completions.create` over the list of
registered vendor keys.  It splits the model, looks the vendor up, rewrites
the forwarded request's `model` to the stripped id, and picks the streaming
or non-streaming provider method by the request's `stream` flag; an
unregistered vendor fails with `ProviderNotConfigured` before any provider is
reached. -/
def create (registered : List String) (request : ChatCompletionRequest) :
    DispatchResult :=
  let split := splitModel request.model
  if split.1 ∈ registered then
    let forwarded := { request with model := split.2 }
    if request.stream = some true then .callStream split.1 forwarded
    else .callChat split.1 forwarded
  else .notConfigured split.1

end Client

/-- Character of one base-36 digit, `0`-`9` then `a`-`z`, as JS
`Number.prototype.toString(36)` uses. -/
def base36Char (d : Nat) : Char :=
  if d < 10 then Char.ofNat (48 + d) else Char.ofNat (87 + d)

/-- Fixed-width little-endian base-36 digit string of a natural number. -/
def base36pad : Nat → Nat → List Char
  | 0, _ => []
  | k + 1, n => base36Char (n % 36) :: base36pad k (n / 36)

/-- Modelled from the spec: the chunk id generator `generateId`
(`utils/streaming.ts` is not under src/, only its tests are).  The spec
requires ids drawn from a random source with the fixed format contract
`chatcmpl-` followed by nine characters of `[a-z0-9]`, distinct across
calls; the random source is modelled as the explicit draw index `n`, each
draw yielding nine base-36 characters. -/
def generateId (n : Nat) : String :=
  "chatcmpl-" ++ ⟨base36pad 9 n⟩

/-- Delta content of a canonical chunk's first choice (what a consumer
concatenates to rebuild the assistant message). -/
def chunkDeltaContent (c : ChatCompletionChunk) : Option String :=
  match c.choices with
  | ch :: _ => ch.delta.content
  | [] => none

/-- Delta content of a native Mistral stream event's first choice. -/
def Mistral.eventDeltaContent (ev : Mistral.MistralStreamResponse) :
    Option String :=
  match ev.choices with
  | ch :: _ => ch.delta.content
  | [] => none

/-- Delta content of a native Groq stream chunk's first choice. -/
def Groq.eventDeltaContent (ev : Groq.GroqStreamChunk) : Option String :=
  match ev.choices with
  | ch :: _ => ch.delta.content
  | [] => none

/-- Nullable delta content rendered as the string a consumer appends. -/
def optContent (o : Option String) : String := o.getD ""

/-- Concrete non-streaming request used by witnesses. -/
def exampleRequest : ChatCompletionRequest :=
  { model := "mistral-large"
    messages := [{ role := "user", content := some "Hello" }] }

/-- Concrete request with `stream: true` used by witnesses. -/
def exampleStreamingRequest : ChatCompletionRequest :=
  { model := "mistral-large"
    messages := [{ role := "user", content := some "Hello" }]
    stream := some true }

/-- Concrete native Mistral response whose `usage` field is absent. -/
def mistralRespNoUsage : Mistral.MistralResponse :=
  { id := "resp-1"
    model := "mistral-large"
    choices :=
      [{ index := 0
         message := { role := "assistant", content := some "Hi there" }
         finish_reason := some "stop" }]
    usage := none }

/-- First choice of the concrete native Mistral response below; its message
carries tool calls, which the adapter drops. -/
def exampleFirstChoice : Mistral.ResponseChoice :=
  { index := 0
    message := { role := "assistant", content := some "Hi there"
                 tool_calls := some [⟨"tc1", "f", "null"⟩] }
    finish_reason := some "stop" }

/-- Second choice of the concrete native Mistral response below; the adapter
discards it. -/
def exampleSecondChoice : Mistral.ResponseChoice :=
  { index := 1
    message := { role := "assistant", content := some "Second" }
    finish_reason := some "stop" }

/-- Concrete native Mistral response with all fields present and two
choices. -/
def exampleMistralResponse : Mistral.MistralResponse :=
  { id := "resp-2"
    model := "mistral-large"
    choices := [exampleFirstChoice, exampleSecondChoice]
    usage := some { prompt_tokens := 3, completion_tokens := 4, total_tokens := 7 } }

/-- Concrete native Mistral stream event used by witnesses. -/
def exampleMistralEvent : Mistral.MistralStreamResponse :=
  { id := "native-event-id"
    model := "mistral-large"
    choices := [{ delta := { content := some "Hel" } }] }

/-- Concrete native Groq stream chunk used by witnesses. -/
def exampleGroqEvent : Groq.GroqStreamChunk :=
  { id := "native-chunk-id"
    model := "llama3-8b-8192"
    choices := [{ index := 0, delta := { content := some "lo" }, finish_reason := none }] }

/-- Canonical chunks the Mistral wrapper yields for `exampleMistralEvent`
under stream id `"sid-1"`. -/
def exampleMistralChunks : List ChatCompletionChunk :=
  [{ id := "sid-1"
     object := "chat.completion.chunk"
     created := 0
     model := "mistral-large"
     choices :=
       [{ index := 0
          delta := { role := some "assistant", content := some "Hel"
                     tool_calls := none }
          finish_reason := none }] }]

/-- Canonical chunks the Groq wrapper yields for `exampleGroqEvent` under
stream id `"sid-1"`. -/
def exampleGroqChunks : List ChatCompletionChunk :=
  [{ id := "sid-1"
     object := "chat.completion.chunk"
     created := 0
     model := "groq:llama3-8b-8192"
     choices :=
       [{ index := 0
          delta := { content := some "lo" }
          finish_reason := none }] }]

/-! Helper lemmas shared by the claim theorems. -/

theorem data_append_eq (a b : String) : (a ++ b).data = a.data ++ b.data := by
  cases a
  cases b
  rfl

theorem splitAtColon_append (v m : List Char) (hv : ':' ∉ v) :
    Client.splitAtColon (v ++ ':' :: m) = some (v, m) := by
  induction v with
  | nil => simp [Client.splitAtColon]
  | cons c cs ih =>
    have hc : ¬ c = ':' := fun h => hv (h ▸ List.mem_cons_self c cs)
    have hcs : ':' ∉ cs := fun h => hv (List.mem_cons_of_mem _ h)
    simp only [List.cons_append, Client.splitAtColon, if_neg hc, List.append_eq]
    rw [ih hcs]

theorem splitModel_append (v m : String) (hv : ':' ∉ v.data) :
    Client.splitModel (v ++ ":" ++ m) = (v, m) := by
  have hdata : (v ++ ":" ++ m).data = v.data ++ ':' :: m.data := by
    rw [data_append_eq, data_append_eq]
    simp [String.data]
  rw [Client.splitModel, hdata, splitAtColon_append v.data m.data hv]

theorem mapM_option_mem {α β : Type} (f : α → Option β) :
    ∀ (l : List α) (r : List β), l.mapM f = some r →
      ∀ c ∈ r, ∃ e ∈ l, f e = some c := by
  intro l
  induction l with
  | nil =>
    intro r hr c hc
    simp only [List.mapM_nil, Option.pure_def, Option.some.injEq] at hr
    subst hr
    exact absurd hc (List.not_mem_nil c)
  | cons a as ih =>
    intro r hr c hc
    rw [List.mapM_cons] at hr
    cases ha : f a with
    | none => rw [ha] at hr; simp at hr
    | some b =>
      rw [ha] at hr
      cases has : as.mapM f with
      | none => rw [has] at hr; simp at hr
      | some bs =>
        rw [has] at hr
        simp at hr
        subst hr
        rcases List.mem_cons.mp hc with hcb | hcbs
        · exact ⟨a, List.mem_cons_self a as, hcb ▸ ha⟩
        · obtain ⟨e, he, hfe⟩ := ih bs has c hcbs
          exact ⟨e, List.mem_cons_of_mem a he, hfe⟩

theorem mistral_adaptStream_id (ev : Mistral.MistralStreamResponse)
    (streamId : String) (now : Nat) (c : ChatCompletionChunk)
    (h : Mistral.adaptStreamResponse ev streamId now = some c) :
    c.id = streamId := by
  cases hc : ev.choices with
  | nil => rw [Mistral.adaptStreamResponse, hc] at h; exact absurd h (by simp)
  | cons ch rest =>
    rw [Mistral.adaptStreamResponse, hc] at h
    simp only [Option.some.injEq] at h
    subst h
    rfl

theorem mistral_stream_ok_inv
    (transport : Mistral.NativeRequest →
      Except JSThrow (List Mistral.MistralStreamResponse))
    (streamId : String) (request : ChatCompletionRequest) (now : Nat)
    (chunks : List ChatCompletionChunk)
    (h : MistralProvider.streamChatCompletion transport streamId request now =
      .ok chunks) :
    ∃ events, transport (Mistral.adaptRequest request) = .ok events ∧
      events.mapM (fun ev => Mistral.adaptStreamResponse ev streamId now) =
        some chunks := by
  cases htr : transport (Mistral.adaptRequest request) with
  | error e =>
    simp only [MistralProvider.streamChatCompletion, htr] at h
    exact Except.noConfusion h
  | ok events =>
    simp only [MistralProvider.streamChatCompletion, htr] at h
    cases hmap : events.mapM (fun ev => Mistral.adaptStreamResponse ev streamId now) with
    | none => rw [hmap] at h; simp at h
    | some cs =>
      rw [hmap] at h
      simp only [Except.ok.injEq] at h
      exact ⟨events, rfl, h ▸ hmap⟩

theorem groq_stream_ok_inv
    (transport : Groq.NativeRequest → Except JSThrow (List Groq.GroqStreamChunk))
    (streamId : String) (request : ChatCompletionRequest) (now : Nat)
    (chunks : List ChatCompletionChunk)
    (h : GroqProvider.streamChatCompletion transport streamId request now =
      .ok chunks) :
    ∃ events, transport (Groq.adaptRequest request) = .ok events ∧
      chunks = events.map fun ev => Groq.adaptStreamResponse ev streamId now := by
  cases htr : transport (Groq.adaptRequest request) with
  | error e =>
    simp only [GroqProvider.streamChatCompletion, htr] at h
    exact Except.noConfusion h
  | ok events =>
    simp only [GroqProvider.streamChatCompletion, htr] at h
    simp only [Except.ok.injEq] at h
    exact ⟨events, rfl, h.symm⟩

theorem base36Char_mem : ∀ d < 36,
    ('a' ≤ base36Char d ∧ base36Char d ≤ 'z') ∨
    ('0' ≤ base36Char d ∧ base36Char d ≤ '9') := by decide

theorem base36Char_inj : ∀ d < 36, ∀ e < 36,
    base36Char d = base36Char e → d = e := by decide

theorem base36pad_length (k : Nat) : ∀ n, (base36pad k n).length = k := by
  induction k with
  | zero => intro n; rfl
  | succ k ih => intro n; simp [base36pad, ih]

theorem base36pad_mem (k : Nat) : ∀ n, ∀ c ∈ base36pad k n,
    ('a' ≤ c ∧ c ≤ 'z') ∨ ('0' ≤ c ∧ c ≤ '9') := by
  induction k with
  | zero => intro n c hc; exact absurd hc (List.not_mem_nil c)
  | succ k ih =>
    intro n c hc
    rcases List.mem_cons.mp hc with h | h
    · exact h ▸ base36Char_mem (n % 36) (Nat.mod_lt n (by norm_num))
    · exact ih (n / 36) c h

theorem base36pad_inj (k : Nat) : ∀ m < 36 ^ k, ∀ n < 36 ^ k,
    base36pad k m = base36pad k n → m = n := by
  induction k with
  | zero =>
    intro m hm n hn _
    simp only [pow_zero, Nat.lt_one_iff] at hm hn
    omega
  | succ k ih =>
    intro m hm n hn h
    simp only [base36pad, List.cons.injEq] at h
    have hmod : m % 36 = n % 36 :=
      base36Char_inj (m % 36) (Nat.mod_lt m (by norm_num))
        (n % 36) (Nat.mod_lt n (by norm_num)) h.1
    have hmlt : m / 36 < 36 ^ k := by
      rw [Nat.div_lt_iff_lt_mul (by norm_num : 0 < 36)]
      calc m < 36 ^ (k + 1) := hm
        _ = 36 ^ k * 36 := by ring
    have hnlt : n / 36 < 36 ^ k := by
      rw [Nat.div_lt_iff_lt_mul (by norm_num : 0 < 36)]
      calc n < 36 ^ (k + 1) := hn
        _ = 36 ^ k * 36 := by ring
    have hdiv : m / 36 = n / 36 := ih (m / 36) hmlt (n / 36) hnlt h.2
    omega

theorem generateId_data (n : Nat) :
    (generateId n).data = "chatcmpl-".data ++ base36pad 9 n := by
  rw [generateId, data_append_eq]

theorem generateId_inj : ∀ m < 36 ^ 9, ∀ n < 36 ^ 9,
    generateId m = generateId n → m = n := by
  intro m hm n hn h
  have hdata := congrArg String.data h
  rw [generateId_data, generateId_data] at hdata
  exact base36pad_inj 9 m hm n hn (List.append_cancel_left hdata)

theorem mistral_chunk_content (ev : Mistral.MistralStreamResponse)
    (streamId : String) (now : Nat) (c : ChatCompletionChunk)
    (h : Mistral.adaptStreamResponse ev streamId now = some c) :
    chunkDeltaContent c = Mistral.eventDeltaContent ev := by
  cases hc : ev.choices with
  | nil => rw [Mistral.adaptStreamResponse, hc] at h; exact Option.noConfusion h
  | cons ch rest =>
    rw [Mistral.adaptStreamResponse, hc] at h
    simp only [Option.some.injEq] at h
    subst h
    simp [chunkDeltaContent, Mistral.eventDeltaContent, hc]

theorem mistral_mapM_adapt (streamId : String) (now : Nat) :
    ∀ (events : List Mistral.MistralStreamResponse),
      (∀ ev ∈ events, ev.choices ≠ []) →
      ∃ chunks,
        events.mapM (fun ev => Mistral.adaptStreamResponse ev streamId now) =
          some chunks ∧
        chunks.length = events.length ∧
        chunks.map chunkDeltaContent = events.map Mistral.eventDeltaContent := by
  intro events
  induction events with
  | nil => exact fun _ => ⟨[], by rfl, rfl, rfl⟩
  | cons ev rest ih =>
    intro h
    obtain ⟨chunks, hmap, hlen, hcont⟩ :=
      ih fun e he => h e (List.mem_cons_of_mem ev he)
    have hne : ev.choices ≠ [] := h ev (List.mem_cons_self ev rest)
    cases hc : ev.choices with
    | nil => exact absurd hc hne
    | cons c cs =>
      obtain ⟨chunk0, hadapt⟩ :
          ∃ ch, Mistral.adaptStreamResponse ev streamId now = some ch := by
        rw [Mistral.adaptStreamResponse, hc]
        exact ⟨_, rfl⟩
      refine ⟨chunk0 :: chunks, ?_, ?_, ?_⟩
      · simp only [List.mapM_cons, hadapt, hmap]
        rfl
      · simp [hlen]
      · simp only [List.map_cons, hcont,
          mistral_chunk_content ev streamId now chunk0 hadapt]

theorem groq_chunk_content (ev : Groq.GroqStreamChunk) (streamId : String)
    (now : Nat) :
    chunkDeltaContent (Groq.adaptStreamResponse ev streamId now) =
      Groq.eventDeltaContent ev := by
  cases hc : ev.choices with
  | nil => simp [Groq.adaptStreamResponse, chunkDeltaContent,
      Groq.eventDeltaContent, hc]
  | cons c cs => simp [Groq.adaptStreamResponse, chunkDeltaContent,
      Groq.eventDeltaContent, hc]

/-! Claim theorems. -/

/-- Claim C1: for every configured provider (Mistral and Groq, the wrappers
under src/), `chatCompletion` on a request with `stream: true` rejects with
the canonical `STREAMING_NOT_SUPPORTED` error, and the result is the same
for every transport — the vendor SDK's completion call is never invoked. -/
theorem claim_C1 (request : ChatCompletionRequest) (now : Nat)
    (hstream : request.stream = some true) :
    (∀ transport, MistralProvider.chatCompletion transport request now =
      .error { message := streamingNotSupportedMsg, provider := "mistral",
               code := "STREAMING_NOT_SUPPORTED" }) ∧
    (∀ transport, GroqProvider.chatCompletion transport request =
      .error { message := streamingNotSupportedMsg, provider := "groq",
               code := "STREAMING_NOT_SUPPORTED" }) := by
  constructor <;> intro transport <;>
    simp [MistralProvider.chatCompletion, GroqProvider.chatCompletion, hstream]

/-- Witness for C1 at a concrete streaming request and transport. -/
theorem claim_C1_witness :
    MistralProvider.chatCompletion (fun _ => .error .nonError)
      exampleStreamingRequest 0 =
      .error { message := streamingNotSupportedMsg, provider := "mistral",
               code := "STREAMING_NOT_SUPPORTED" } ∧
    GroqProvider.chatCompletion (fun _ => .error .nonError)
      exampleStreamingRequest =
      .error { message := streamingNotSupportedMsg, provider := "groq",
               code := "STREAMING_NOT_SUPPORTED" } := by
  have h := claim_C1 exampleStreamingRequest 0 rfl
  exact ⟨h.1 _, h.2 _⟩

/-- Claim C2 counterexample: `MistralProvider.streamChatCompletion` does NOT
rethrow a pre-existing canonical `AISuiteError` unchanged — a transport
rejection with a canonical error of kind `CUSTOM_ERROR` comes back re-wrapped
as a different error of kind `STREAMING_ERROR`. -/
theorem claim_C2_counterexample :
    MistralProvider.streamChatCompletion
      (fun _ => .error (.aisuite
        { message := "Custom error", provider := "mistral",
          code := "CUSTOM_ERROR" }))
      "chatcmpl-000000000" exampleRequest 0 =
      .error { message := "Mistral streaming error: Custom error",
               provider := "mistral", code := "STREAMING_ERROR" } ∧
    ({ message := "Mistral streaming error: Custom error",
       provider := "mistral", code := "STREAMING_ERROR" } : AISuiteError) ≠
      { message := "Custom error", provider := "mistral",
        code := "CUSTOM_ERROR" } := by
  exact ⟨rfl, by decide⟩

/-- Claim C2 as amended: only `chatCompletion` rethrows a canonical
`AISuiteError` identically (same value, same kind) for both providers;
`streamChatCompletion` of both providers re-wraps every caught error —
canonical ones included — into a fresh `STREAMING_ERROR` that embeds only
the original message. -/
theorem claim_C2_amended (e : AISuiteError) (request : ChatCompletionRequest)
    (now : Nat) (streamId : String)
    (hstream : ¬ request.stream = some true) :
    MistralProvider.chatCompletion (fun _ => .error (.aisuite e)) request now =
      .error e ∧
    GroqProvider.chatCompletion (fun _ => .error (.aisuite e)) request =
      .error e ∧
    MistralProvider.streamChatCompletion (fun _ => .error (.aisuite e))
      streamId request now =
      .error { message := "Mistral streaming error: " ++ e.message,
               provider := "mistral", code := "STREAMING_ERROR" } ∧
    GroqProvider.streamChatCompletion (fun _ => .error (.aisuite e))
      streamId request now =
      .error { message := "Groq streaming error: " ++ e.message,
               provider := "groq", code := "STREAMING_ERROR" } := by
  refine ⟨?_, ?_, ?_, ?_⟩ <;>
    simp [MistralProvider.chatCompletion, GroqProvider.chatCompletion,
      MistralProvider.streamChatCompletion, GroqProvider.streamChatCompletion,
      hstream, JSThrow.errMessage]

/-- Witness for the amended C2 at a concrete canonical error and request. -/
theorem claim_C2_amended_witness :
    MistralProvider.chatCompletion
      (fun _ => .error (.aisuite
        { message := "Custom error", provider := "mistral",
          code := "CUSTOM_ERROR" })) exampleRequest 0 =
      .error { message := "Custom error", provider := "mistral",
               code := "CUSTOM_ERROR" } ∧
    GroqProvider.chatCompletion
      (fun _ => .error (.aisuite
        { message := "Custom error", provider := "mistral",
          code := "CUSTOM_ERROR" })) exampleRequest =
      .error { message := "Custom error", provider := "mistral",
               code := "CUSTOM_ERROR" } ∧
    MistralProvider.streamChatCompletion
      (fun _ => .error (.aisuite
        { message := "Custom error", provider := "mistral",
          code := "CUSTOM_ERROR" })) "chatcmpl-000000000" exampleRequest 0 =
      .error { message := "Mistral streaming error: " ++ "Custom error",
               provider := "mistral", code := "STREAMING_ERROR" } ∧
    GroqProvider.streamChatCompletion
      (fun _ => .error (.aisuite
        { message := "Custom error", provider := "mistral",
          code := "CUSTOM_ERROR" })) "chatcmpl-000000000" exampleRequest 0 =
      .error { message := "Groq streaming error: " ++ "Custom error",
               provider := "groq", code := "STREAMING_ERROR" } := by
  exact claim_C2_amended
    { message := "Custom error", provider := "mistral", code := "CUSTOM_ERROR" }
    exampleRequest 0 "chatcmpl-000000000" (by decide)

/-- Claim C6: for both providers, a vendor transport rejection with a plain
`Error` wraps into `API_ERROR` with message `"<Vendor> API error: "` followed
by the original message; a rejection with a non-`Error` value wraps with the
suffix `"Unknown error"`. -/
theorem claim_C6 (request : ChatCompletionRequest) (now : Nat) (m : String)
    (hstream : ¬ request.stream = some true) :
    MistralProvider.chatCompletion (fun _ => .error (.jsError m)) request now =
      .error { message := "Mistral API error: " ++ m, provider := "mistral",
               code := "API_ERROR" } ∧
    GroqProvider.chatCompletion (fun _ => .error (.jsError m)) request =
      .error { message := "Groq API error: " ++ m, provider := "groq",
               code := "API_ERROR" } ∧
    MistralProvider.chatCompletion (fun _ => .error .nonError) request now =
      .error { message := "Mistral API error: " ++ "Unknown error",
               provider := "mistral", code := "API_ERROR" } ∧
    GroqProvider.chatCompletion (fun _ => .error .nonError) request =
      .error { message := "Groq API error: " ++ "Unknown error",
               provider := "groq", code := "API_ERROR" } := by
  refine ⟨?_, ?_, ?_, ?_⟩ <;>
    simp [MistralProvider.chatCompletion, GroqProvider.chatCompletion,
      hstream, JSThrow.errMessage]

/-- Witness for C6 at a concrete request and error message. -/
theorem claim_C6_witness :
    MistralProvider.chatCompletion (fun _ => .error (.jsError "boom"))
      exampleRequest 0 =
      .error { message := "Mistral API error: " ++ "boom",
               provider := "mistral", code := "API_ERROR" } ∧
    GroqProvider.chatCompletion (fun _ => .error (.jsError "boom"))
      exampleRequest =
      .error { message := "Groq API error: " ++ "boom", provider := "groq",
               code := "API_ERROR" } ∧
    MistralProvider.chatCompletion (fun _ => .error .nonError)
      exampleRequest 0 =
      .error { message := "Mistral API error: " ++ "Unknown error",
               provider := "mistral", code := "API_ERROR" } ∧
    GroqProvider.chatCompletion (fun _ => .error .nonError) exampleRequest =
      .error { message := "Groq API error: " ++ "Unknown error",
               provider := "groq", code := "API_ERROR" } := by
  exact claim_C6 exampleRequest 0 "boom" (by decide)

/-- Claim C3: dispatch splits `request.model` on the first separator only —
the text before the first `:` selects the provider, everything after it
(further `:` included, verbatim) becomes the model id the provider receives,
and the forwarded request has its `model` field rewritten to that stripped
id; in particular `"openai:gpt-4:vision"` routes to `openai` with model
`"gpt-4:vision"`. -/
theorem claim_C3 (v m : String) (registered : List String)
    (request : ChatCompletionRequest)
    (hv : ':' ∉ v.data) (hmodel : request.model = v ++ ":" ++ m)
    (hreg : v ∈ registered) :
    Client.create registered request =
      (if request.stream = some true
       then .callStream v { request with model := m }
       else .callChat v { request with model := m }) ∧
    Client.splitModel "openai:gpt-4:vision" = ("openai", "gpt-4:vision") := by
  constructor
  · rw [Client.create, hmodel, splitModel_append v m hv]
    simp [hreg]
  · rfl

/-- Witness for C3: `"openai:gpt-4:vision"` dispatched against a client with
`openai` registered calls the `openai` provider with model `"gpt-4:vision"`. -/
theorem claim_C3_witness :
    Client.create ["openai", "groq"]
      { exampleRequest with model := "openai:gpt-4:vision" } =
      (if ({ exampleRequest with model := "openai:gpt-4:vision" } :
            ChatCompletionRequest).stream = some true
       then .callStream "openai"
         { exampleRequest with model := "gpt-4:vision" }
       else .callChat "openai"
         { exampleRequest with model := "gpt-4:vision" }) ∧
    Client.splitModel "openai:gpt-4:vision" = ("openai", "gpt-4:vision") :=
  claim_C3 "openai" "gpt-4:vision" ["openai", "groq"]
    { exampleRequest with model := "openai:gpt-4:vision" }
    (by decide) rfl (by simp)

/-- Claim C4: a request whose vendor prefix names no registered provider
fails with the `ProviderNotConfigured` outcome naming that vendor, and the
dispatch never invokes any provider's `chatCompletion` or
`streamChatCompletion`. -/
theorem claim_C4 (registered : List String) (request : ChatCompletionRequest)
    (h : (Client.splitModel request.model).1 ∉ registered) :
    Client.create registered request =
      .notConfigured (Client.splitModel request.model).1 ∧
    ∀ (vendor : String) (forwarded : ChatCompletionRequest),
      Client.create registered request ≠ .callChat vendor forwarded ∧
      Client.create registered request ≠ .callStream vendor forwarded := by
  have hc : Client.create registered request =
      .notConfigured (Client.splitModel request.model).1 := by
    rw [Client.create]
    simp [h]
  refine ⟨hc, fun vendor forwarded => ⟨?_, ?_⟩⟩
  · rw [hc]
    intro hx
    exact Client.DispatchResult.noConfusion hx
  · rw [hc]
    intro hx
    exact Client.DispatchResult.noConfusion hx

/-- Witness for C4 at the unregistered vendor prefix `"unknown:model"`. -/
theorem claim_C4_witness :
    Client.create ["openai", "anthropic", "mistral", "groq"]
      { exampleRequest with model := "unknown:model" } =
      .notConfigured "unknown" ∧
    Client.create ["openai", "anthropic", "mistral", "groq"]
      { exampleRequest with model := "unknown:model" } ≠
      .callChat "unknown" { exampleRequest with model := "model" } := by
  have h := claim_C4 ["openai", "anthropic", "mistral", "groq"]
    { exampleRequest with model := "unknown:model" } (by decide)
  exact ⟨h.1, (h.2 "unknown" { exampleRequest with model := "model" }).1⟩

/-- Claim C5: every chunk an (ok) stream yields carries the single
per-stream id `streamId` — generated once, before any chunk is emitted, and
passed to every `adaptStreamResponse` call — and the per-event ids of the
native vendor events never influence the output chunks (rewriting a native
event's id leaves the adapted chunk unchanged), for both providers. -/
theorem claim_C5
    (tM : Mistral.NativeRequest →
      Except JSThrow (List Mistral.MistralStreamResponse))
    (tG : Groq.NativeRequest → Except JSThrow (List Groq.GroqStreamChunk))
    (streamId : String) (request : ChatCompletionRequest) (now : Nat)
    (mchunks gchunks : List ChatCompletionChunk)
    (hM : MistralProvider.streamChatCompletion tM streamId request now =
      .ok mchunks)
    (hG : GroqProvider.streamChatCompletion tG streamId request now =
      .ok gchunks) :
    (∀ c ∈ mchunks, c.id = streamId) ∧
    (∀ c ∈ gchunks, c.id = streamId) ∧
    (∀ (ev : Mistral.MistralStreamResponse) (x : String),
      Mistral.adaptStreamResponse { ev with id := x } streamId now =
        Mistral.adaptStreamResponse ev streamId now) ∧
    (∀ (ev : Groq.GroqStreamChunk) (x : String),
      Groq.adaptStreamResponse { ev with id := x } streamId now =
        Groq.adaptStreamResponse ev streamId now) := by
  refine ⟨?_, ?_, ?_, ?_⟩
  · intro c hc
    obtain ⟨events, _, hmap⟩ :=
      mistral_stream_ok_inv tM streamId request now mchunks hM
    obtain ⟨ev, _, hadapt⟩ := mapM_option_mem _ events mchunks hmap c hc
    exact mistral_adaptStream_id ev streamId now c hadapt
  · intro c hc
    obtain ⟨events, _, heq⟩ :=
      groq_stream_ok_inv tG streamId request now gchunks hG
    subst heq
    obtain ⟨ev, _, hev⟩ := List.mem_map.mp hc
    rw [← hev]
    rfl
  · intro ev x
    cases hc : ev.choices <;> simp [Mistral.adaptStreamResponse, hc]
  · intro ev x
    rfl

/-- Witness for C5 at concrete one-event streams for both providers. -/
theorem claim_C5_witness :
    (∀ c ∈ exampleMistralChunks, c.id = "sid-1") ∧
    (∀ c ∈ exampleGroqChunks, c.id = "sid-1") ∧
    (∀ (ev : Mistral.MistralStreamResponse) (x : String),
      Mistral.adaptStreamResponse { ev with id := x } "sid-1" 0 =
        Mistral.adaptStreamResponse ev "sid-1" 0) ∧
    (∀ (ev : Groq.GroqStreamChunk) (x : String),
      Groq.adaptStreamResponse { ev with id := x } "sid-1" 0 =
        Groq.adaptStreamResponse ev "sid-1" 0) :=
  claim_C5 (fun _ => .ok [exampleMistralEvent])
    (fun _ => .ok [exampleGroqEvent]) "sid-1" exampleRequest 0
    exampleMistralChunks exampleGroqChunks rfl rfl

/-- Claim C7: for the flat-stream vendors, adaptation is 1:1 — one output
chunk per native event, in order — the chunk's delta content equals the
native event's first-choice delta content, and concatenating all chunks'
delta content reproduces the concatenation of the native events' delta
content. -/
theorem claim_C7 (streamId : String) (now : Nat)
    (mevents : List Mistral.MistralStreamResponse)
    (gevents : List Groq.GroqStreamChunk)
    (hm : ∀ ev ∈ mevents, ev.choices ≠ []) :
    (∃ mchunks,
      mevents.mapM (fun ev => Mistral.adaptStreamResponse ev streamId now) =
        some mchunks ∧
      mchunks.length = mevents.length ∧
      mchunks.map chunkDeltaContent = mevents.map Mistral.eventDeltaContent ∧
      String.join (mchunks.map fun c => optContent (chunkDeltaContent c)) =
        String.join (mevents.map fun ev =>
          optContent (Mistral.eventDeltaContent ev))) ∧
    ((gevents.map fun ev => Groq.adaptStreamResponse ev streamId now).length =
        gevents.length ∧
      (gevents.map fun ev => Groq.adaptStreamResponse ev streamId now).map
          chunkDeltaContent = gevents.map Groq.eventDeltaContent ∧
      String.join ((gevents.map fun ev =>
          Groq.adaptStreamResponse ev streamId now).map fun c =>
            optContent (chunkDeltaContent c)) =
        String.join (gevents.map fun ev =>
          optContent (Groq.eventDeltaContent ev))) := by
  constructor
  · obtain ⟨mchunks, hmap, hlen, hcont⟩ :=
      mistral_mapM_adapt streamId now mevents hm
    refine ⟨mchunks, hmap, hlen, hcont, ?_⟩
    have h := congrArg (List.map optContent) hcont
    rw [List.map_map, List.map_map] at h
    exact congrArg String.join h
  · refine ⟨by simp, ?_, ?_⟩
    · rw [List.map_map]
      exact List.map_congr_left fun ev _ => groq_chunk_content ev streamId now
    · rw [List.map_map]
      exact congrArg String.join
        (List.map_congr_left fun ev _ => by
          rw [Function.comp_apply, groq_chunk_content ev streamId now])

/-- Witness for C7 at concrete two-event streams for both providers. -/
theorem claim_C7_witness :
    (∃ mchunks,
      [exampleMistralEvent].mapM
        (fun ev => Mistral.adaptStreamResponse ev "sid-2" 0) = some mchunks ∧
      mchunks.length = [exampleMistralEvent].length ∧
      mchunks.map chunkDeltaContent =
        [exampleMistralEvent].map Mistral.eventDeltaContent ∧
      String.join (mchunks.map fun c => optContent (chunkDeltaContent c)) =
        String.join ([exampleMistralEvent].map fun ev =>
          optContent (Mistral.eventDeltaContent ev))) ∧
    (([exampleGroqEvent].map fun ev =>
        Groq.adaptStreamResponse ev "sid-2" 0).length =
        [exampleGroqEvent].length ∧
      ([exampleGroqEvent].map fun ev =>
          Groq.adaptStreamResponse ev "sid-2" 0).map chunkDeltaContent =
        [exampleGroqEvent].map Groq.eventDeltaContent ∧
      String.join (([exampleGroqEvent].map fun ev =>
          Groq.adaptStreamResponse ev "sid-2" 0).map fun c =>
            optContent (chunkDeltaContent c)) =
        String.join ([exampleGroqEvent].map fun ev =>
          optContent (Groq.eventDeltaContent ev))) :=
  claim_C7 "sid-2" 0 [exampleMistralEvent] [exampleGroqEvent]
    (by intro ev hev; simp at hev; subst hev; simp [exampleMistralEvent])

/-- Claim C8 counterexample: Mistral's `adaptResponse` does NOT default a
missing `usage` to the zero record — on a native response that omits
`usage` (and has a choice) the adaptation fails (field access on
`undefined`), refuting the claim for "every vendor's adaptResponse". -/
theorem claim_C8_counterexample :
    mistralRespNoUsage.usage = none ∧
    mistralRespNoUsage.choices ≠ [] ∧
    Mistral.adaptResponse mistralRespNoUsage 0 = none :=
  ⟨rfl, by decide, rfl⟩

/-- Claim C8 as amended: Groq's `adaptResponse` defaults a missing `usage`
to the zero-valued record and does not fail; Mistral's `adaptResponse` does
not default — it reads the usage fields directly, so adaptation fails
whenever the native response omits `usage`. -/
theorem claim_C8_amended :
    (∀ resp : Groq.GroqChatCompletion, resp.usage = none →
      (Groq.adaptResponse resp).usage =
        { prompt_tokens := 0, completion_tokens := 0, total_tokens := 0 }) ∧
    (∀ (r : Mistral.MistralResponse) (now : Nat), r.usage = none →
      Mistral.adaptResponse r now = none) := by
  constructor
  · intro resp h
    simp [Groq.adaptResponse, h]
  · intro r now h
    cases hc : r.choices <;> simp [Mistral.adaptResponse, hc, h]

/-- Witness for the amended C8 at concrete usage-less native responses. -/
theorem claim_C8_amended_witness :
    (Groq.adaptResponse
      { id := "g1", object := "chat.completion", created := 1,
        model := "llama3-8b-8192", choices := [], usage := none }).usage =
      { prompt_tokens := 0, completion_tokens := 0, total_tokens := 0 } ∧
    Mistral.adaptResponse mistralRespNoUsage 0 = none :=
  ⟨claim_C8_amended.1 _ rfl, claim_C8_amended.2 mistralRespNoUsage 0 rfl⟩

/-- Claim C9: the chunk id generator, invoked 1000 times (draw indices 0 to
999 of the random source), yields 1000 pairwise-distinct strings, each being
the literal prefix `chatcmpl-` followed by exactly nine characters drawn
from `a`-`z` and `0`-`9`. -/
theorem claim_C9 :
    ((List.range 1000).map generateId).Nodup ∧
    ∀ n < 1000,
      (generateId n).data = "chatcmpl-".data ++ base36pad 9 n ∧
      (base36pad 9 n).length = 9 ∧
      ∀ c ∈ base36pad 9 n, ('a' ≤ c ∧ c ≤ 'z') ∨ ('0' ≤ c ∧ c ≤ '9') := by
  constructor
  · refine List.Nodup.map_on ?_ (List.nodup_range 1000)
    intro x hx y hy hxy
    have hxlt : x < 36 ^ 9 :=
      lt_of_lt_of_le (List.mem_range.mp hx) (by norm_num)
    have hylt : y < 36 ^ 9 :=
      lt_of_lt_of_le (List.mem_range.mp hy) (by norm_num)
    exact generateId_inj x hxlt y hylt hxy
  · intro n _
    exact ⟨generateId_data n, base36pad_length 9 n, base36pad_mem 9 n⟩

/-- Witness for C9's per-id format contract at the concrete draw index 42. -/
theorem claim_C9_witness :
    (generateId 42).data = "chatcmpl-".data ++ base36pad 9 42 ∧
    (base36pad 9 42).length = 9 ∧
    ∀ c ∈ base36pad 9 42, ('a' ≤ c ∧ c ≤ 'z') ∨ ('0' ≤ c ∧ c ≤ '9') :=
  claim_C9.2 42 (by decide)

/-- Claim C10: Mistral's `adaptResponse` returns exactly one choice with
index 0, built solely from the first native choice; additional native
choices are discarded, and the returned assistant message carries only role
and content — tool calls on the native message are dropped (`tool_calls`,
`name`, `tool_call_id` are all absent). -/
theorem claim_C10 (r : Mistral.MistralResponse) (now : Nat)
    (c : Mistral.ResponseChoice) (rest : List Mistral.ResponseChoice)
    (u : Usage) (hc : r.choices = c :: rest) (hu : r.usage = some u) :
    Mistral.adaptResponse r now = some
      { id := r.id
        object := "chat.completion"
        created := now
        model := r.model
        choices :=
          [{ index := 0
             message := { role := "assistant", content := c.message.content }
             finish_reason := c.finish_reason }]
        usage := { prompt_tokens := u.prompt_tokens
                   completion_tokens := u.completion_tokens
                   total_tokens := u.total_tokens } } ∧
    Mistral.adaptResponse { r with choices := c :: rest } now =
      Mistral.adaptResponse { r with choices := [c] } now := by
  constructor
  · simp [Mistral.adaptResponse, hc, hu]
  · simp [Mistral.adaptResponse, hu]

/-- Witness for C10 at a concrete two-choice native Mistral response whose
first message carries tool calls. -/
theorem claim_C10_witness :
    Mistral.adaptResponse exampleMistralResponse 5 = some
      { id := exampleMistralResponse.id
        object := "chat.completion"
        created := 5
        model := exampleMistralResponse.model
        choices :=
          [{ index := 0
             message := { role := "assistant"
                          content := exampleFirstChoice.message.content }
             finish_reason := exampleFirstChoice.finish_reason }]
        usage := { prompt_tokens := 3, completion_tokens := 4,
                   total_tokens := 7 } } ∧
    Mistral.adaptResponse { exampleMistralResponse with
        choices := exampleFirstChoice :: [exampleSecondChoice] } 5 =
      Mistral.adaptResponse { exampleMistralResponse with
        choices := [exampleFirstChoice] } 5 :=
  claim_C10 exampleMistralResponse 5 exampleFirstChoice [exampleSecondChoice]
    { prompt_tokens := 3, completion_tokens := 4, total_tokens := 7 } rfl rfl
